import Mathlib

/-!
Verification of the authentication and session-identity subsystem of the
ConnectHub repository (`app/routes/auth.py`, `app/utils/auth.py`,
`app/middleware.py`, `app/models.py`, `app/config.py`).

The Python source is shallowly embedded: route handlers and utility
functions become Lean functions over explicit state (the user table is a
`List User`, the server-side session store a `Session` record, wall-clock
time a `Nat` of seconds); network effects are cut at the point where the
handler would leave the process, and the flow position reached is returned
as an explicit outcome value.  Python truthiness of optional strings is
modelled by `truthy`.
-/

namespace ConnectHub

/-- Python truthiness of an optional string value (`None` and the empty
string are falsy, any other string is truthy). -/
def truthy : Option String → Bool
  | none => false
  | some s => !s.isEmpty

/-- Characters before the first `@`. -/
def takeUntilAt : List Char → List Char
  | [] => []
  | c :: cs => if c = '@' then [] else c :: takeUntilAt cs

/-- Python `s.split("@")[0]`: everything before the first `@` (the whole
string when no `@` occurs; `""` for the empty string). -/
def pyLocalPart (s : String) : String :=
  ⟨takeUntilAt s.data⟩

/-- Whether the first list starts with the second. -/
def listStartsWith : List Char → List Char → Bool
  | _, [] => true
  | [], _ :: _ => false
  | c :: cs, d :: ds => c = d && listStartsWith cs ds

/-- Whether the second list occurs as a contiguous run inside the
first. -/
def listHasInfix (s sub : List Char) : Bool :=
  match s with
  | [] => sub.isEmpty
  | _ :: rest => listStartsWith s sub || listHasInfix rest sub

/-- Python `sub in s` membership test for strings. -/
def pyContains (s sub : String) : Bool :=
  listHasInfix s.data sub.data

/-- Python `s.strip()`: the string with leading and trailing whitespace
removed. -/
def pyStrip (s : String) : String :=
  ⟨((s.data.dropWhile Char.isWhitespace).reverse.dropWhile Char.isWhitespace).reverse⟩

/-- Python `s.endswith(suffix)`. -/
def pyEndsWith (s suffix : String) : Bool :=
  listStartsWith s.data.reverse suffix.data.reverse

/-- Python `s.lower()` (ASCII case folding suffices for the strings this
code compares). -/
def pyLower (s : String) : String :=
  ⟨s.data.map Char.toLower⟩

/-- Python `s.split()` with no argument: maximal runs of
non-whitespace. The accumulator carries the current word reversed. -/
def pyWordsAux : List Char → List Char → List String
  | [], acc => if acc.isEmpty then [] else [⟨acc.reverse⟩]
  | c :: cs, acc =>
    if c.isWhitespace then
      if acc.isEmpty then pyWordsAux cs []
      else ⟨acc.reverse⟩ :: pyWordsAux cs []
    else pyWordsAux cs (c :: acc)

/-- Python `s.split()`: whitespace-separated words, empty runs dropped. -/
def pyWords (s : String) : List String :=
  pyWordsAux s.data []

/-- `settings.ACCESS_TOKEN_EXPIRE_DAYS` (`app/config.py` line 25). -/
def ACCESS_TOKEN_EXPIRE_DAYS : Nat := 30

/-- Seconds in a day, used to express the default token lifetime
`timedelta(days=settings.ACCESS_TOKEN_EXPIRE_DAYS)` in seconds. -/
def secondsPerDay : Nat := 86400

/-! ## Token codec (`app/utils/auth.py` lines 20-66)

`create_access_token` builds a JWT whose claims are the caller-supplied
`sub` plus an `exp` timestamp; `decode_access_token` verifies the
signature and the expiry.  The JWT wire format is abstracted: an artifact
is either a (payload, signature) pair or an unparseable blob, and the
HMAC is modelled as the function `sign`, with verification meaning exact
recomputation of the tag. -/

/-- Claims carried by a session token: `sub` (subject, the user id as a
string) and `exp` (absolute expiry, seconds since epoch).  PyJWT encodes
`exp` as an integer timestamp. -/
structure TokenPayload where
  sub : String
  exp : Nat
deriving DecidableEq, Repr

/-- Model of the HMAC tag over the payload, keyed by the server secret.
Verification semantics is all the proofs use: a tag is valid iff it equals
the recomputation of `sign` on the same secret and payload. -/
def sign (secret : String) (sub : String) (exp : Nat) : String :=
  secret ++ "." ++ sub ++ "." ++ toString exp

/-- A token string as received on the wire: either it parses into a
payload with a signature tag, or it is malformed (not a JWT at all). -/
inductive Artifact
  | token (payload : TokenPayload) (sig : String)
  | malformed (raw : String)
deriving DecidableEq, Repr

/-- `create_access_token(data, expires_delta)` (`app/utils/auth.py` lines
20-38): expiry is `now + expires_delta` when a truthy delta is given
(Python `if expires_delta:` — a zero timedelta is falsy), else
`now + timedelta(days=ACCESS_TOKEN_EXPIRE_DAYS)`; the payload is signed
with the server secret.  `expires_delta` is in seconds. -/
def create_access_token (secret : String) (now : Nat) (data_sub : String)
    (expires_delta : Option Nat) : Artifact :=
  let expire :=
    match expires_delta with
    | some d => if d = 0 then now + ACCESS_TOKEN_EXPIRE_DAYS * secondsPerDay else now + d
    | none => now + ACCESS_TOKEN_EXPIRE_DAYS * secondsPerDay
  Artifact.token ⟨data_sub, expire⟩ (sign secret data_sub expire)

/-- Failure modes of `decode_access_token`.  `expired` corresponds to
`pyjwt.ExpiredSignatureError`, caught and re-raised as HTTP 401
"Token has expired".  Every other decode failure (malformed token, bad
signature) hits `except pyjwt.JWTError` (`app/utils/auth.py` line 62) —
but PyJWT exports no `JWTError` attribute (its base class is
`PyJWTError`; `JWTError` belongs to python-jose), so evaluating that
except clause raises `AttributeError`, which escapes the function: the
HTTP 401 "Could not validate credentials" response at lines 63-66 is
dead code. -/
inductive DecodeFailure
  | expired
  | attributeError
deriving DecidableEq, Repr

/-- `decode_access_token(token)` (`app/utils/auth.py` lines 41-66):
PyJWT first verifies the signature (failure or an unparseable token is an
invalid-token error), then validates the `exp` claim.  Per RFC 7519
section 4.1.4 the current time must be strictly before `exp`, and PyJWT
raises `ExpiredSignatureError` when `exp <= now - leeway` with zero
default leeway — so the token is already expired at the instant
`now = exp`.  Only the expired path is handled; a malformed or
badly-signed token makes the function raise `AttributeError` (see
`DecodeFailure`). -/
def decode_access_token (secret : String) (now : Nat) :
    Artifact → Except DecodeFailure TokenPayload
  | Artifact.malformed _ => Except.error DecodeFailure.attributeError
  | Artifact.token p sig =>
    if sign secret p.sub p.exp = sig then
      if p.exp ≤ now then Except.error DecodeFailure.expired
      else Except.ok p
    else Except.error DecodeFailure.attributeError

/-- C2, counterexample: the claim is false on two counts.  First, it
asserts decoding still succeeds "as long as now does not exceed issued_at
+ ttl", i.e. also at `now = issued_at + ttl`; minting at time 0 with ttl
5 and decoding at time 5 fails with `Expired` (RFC 7519 requires now
strictly before exp; PyJWT raises `ExpiredSignatureError` when
`exp <= now`).  Second, it asserts a malformed payload fails with an
`Invalid` error; decoding a malformed artifact instead raises
`AttributeError` (the except clause names `pyjwt.JWTError`, which PyJWT
does not export), never the claimed Invalid (401) error. -/
theorem C2_boundary_counterexample :
    decode_access_token "k" 5 (create_access_token "k" 0 "u" (some 5))
      = Except.error DecodeFailure.expired
  ∧ decode_access_token "k" 3 (Artifact.malformed "junk")
      = Except.error DecodeFailure.attributeError := by
  exact ⟨rfl, rfl⟩

/-- C2 (amended): for every subject and every ttl > 0, decoding the
artifact produced by `create_access_token` yields a payload whose `sub`
equals that subject as long as `now < issued_at + ttl`, and once
`now ≥ issued_at + ttl` decoding fails with `Expired`; a malformed
artifact, or one whose signature does not verify, never produces an
`Invalid` error — the handler for that case references the nonexistent
`pyjwt.JWTError`, so decoding raises `AttributeError` (a crash). -/
theorem C2_token_roundtrip (secret sub : String) (issued ttl now : Nat)
    (h : 0 < ttl) :
    (now < issued + ttl →
      decode_access_token secret now (create_access_token secret issued sub (some ttl))
        = Except.ok ⟨sub, issued + ttl⟩)
  ∧ (issued + ttl ≤ now →
      decode_access_token secret now (create_access_token secret issued sub (some ttl))
        = Except.error DecodeFailure.expired)
  ∧ (∀ raw, decode_access_token secret now (Artifact.malformed raw)
        = Except.error DecodeFailure.attributeError)
  ∧ (∀ p sig, sign secret p.sub p.exp ≠ sig →
      decode_access_token secret now (Artifact.token p sig)
        = Except.error DecodeFailure.attributeError) := by
  refine ⟨?_, ?_, ?_, ?_⟩
  · intro hlt
    simp [create_access_token, decode_access_token, h.ne', Nat.not_le.mpr hlt]
  · intro hle
    simp [create_access_token, decode_access_token, h.ne', hle]
  · intro raw
    rfl
  · intro p sig hsig
    simp [decode_access_token, hsig]

/-- Witness for `C2_token_roundtrip` at secret `"k"`, subject `"u"`,
issued 0, ttl 5, now 3. -/
theorem C2_token_roundtrip_witness :
    decode_access_token "k" 3 (create_access_token "k" 0 "u" (some 5))
      = Except.ok ⟨"u", 5⟩ :=
  (C2_token_roundtrip "k" "u" 0 5 3 (by decide)).1 (by decide)

/-! ## User model (`app/models.py` lines 52-73)

Only the columns the authentication core reads or writes are embedded.
`last_login_at` timestamps are seconds since epoch. -/

/-- Row of the `users` table (`app/models.py` lines 52-73).  `email` is a
`String(255)` column compared with plain SQL equality (default binary
collation — no `COLLATE NOCASE`, no lowercasing in the code), so lookups
are byte-exact. -/
structure User where
  id : String
  email : String
  password_hash : Option String
  oauth_provider : Option String
  oauth_id : Option String
  display_name : String
  profile_picture_url : Option String
  last_login_at : Option Nat
  email_verified : Bool
deriving DecidableEq, Repr

/-- `db.execute(select(User).where(User.email == email))` followed by
`scalar_one_or_none()`: the first row whose `email` column equals the
argument byte-for-byte. -/
def findByEmail (db : List User) (email : String) : Option User :=
  db.find? (fun u => u.email = email)

/-- `db.execute(select(User).where(User.id == user_id))` followed by
`scalar_one_or_none()`. -/
def findById (db : List User) (id : String) : Option User :=
  db.find? (fun u => u.id = id)

/-- SQLAlchemy mutation of the fetched row followed by `commit`: replace
the first row matching the email with the updated row. -/
def updateFirstByEmail : List User → String → User → List User
  | [], _, _ => []
  | v :: rest, e, u =>
    if v.email = e then u :: rest else v :: updateFirstByEmail rest e u

/-! ## OAuth callback state validation
(`app/routes/auth.py` lines 151-188 and 337-374)

The callbacks are modelled up to the point where they would leave the
process to call the provider token endpoint: the outcome value records
which terminal response (error page, HTTP error) or flow position (token
exchange about to be attempted) is reached, and the updated server-side
session is returned alongside. -/

/-- Server-side session store as the two keys the OAuth flow uses:
`session["state"]` (the CSRF state) and `session["oauth_state"]` (the
provider stamp).  `none` models an absent key. -/
structure Session where
  state : Option String
  oauth_state : Option String
deriving DecidableEq, Repr

/-- Outcome of a callback handler, up to the token exchange. -/
inductive CallbackStep
  /-- `render_template("auth/error.html", ...)` -/
  | errorPage (error : String)
  /-- `raise HTTPException(status_code, detail)` -/
  | httpError (status : Nat) (detail : String)
  /-- control reached the code-for-token exchange (`httpx` POST) -/
  | tokenExchange
deriving DecidableEq, Repr

/-- Session with both OAuth keys deleted (`del request.session["state"]`,
`del request.session["oauth_state"]`, each guarded by a membership
test). -/
def clearOauthKeys (_s : Session) : Session :=
  ⟨none, none⟩

/-- `google_callback` up to the token exchange (`app/routes/auth.py` lines
151-211).  Faithful points: a provider error parameter (either `error` or
`authError`) renders the error page; a missing `code` is HTTP 400; the
stored state is compared with the received one but a mismatch is ONLY
LOGGED ("State validation is optional - just log if mismatch", line 178)
— the stored state is deleted and the flow proceeds to the token exchange
regardless. -/
def google_callback_pre (sess : Session) (code state error authError : Option String) :
    CallbackStep × Session :=
  let oauth_error := if truthy error then error else authError
  if truthy oauth_error then
    (CallbackStep.errorPage (oauth_error.getD ""), sess)
  else if !truthy code then
    (CallbackStep.httpError 400 "Missing authorization code", sess)
  else
    (CallbackStep.tokenExchange, clearOauthKeys sess)

/-- `microsoft_callback` up to the token exchange (`app/routes/auth.py`
lines 337-388).  A provider error renders the error page; a missing
`code` or `state` is HTTP 400; then the stored session state must be
truthy and equal to the received state, otherwise the stored state is
cleared and HTTP 400 "Invalid state parameter" is raised; on success the
stored state is cleared (consumed) and the flow proceeds to the token
exchange. -/
def microsoft_callback_pre (sess : Session) (code state error : Option String) :
    CallbackStep × Session :=
  if truthy error then
    (CallbackStep.errorPage (error.getD ""), sess)
  else if !truthy code || !truthy state then
    (CallbackStep.httpError 400 "Missing code or state parameter", sess)
  else if truthy sess.state = false ∨ sess.state ≠ state then
    (CallbackStep.httpError 400 "Invalid state parameter. Please try logging in again.",
      clearOauthKeys sess)
  else
    (CallbackStep.tokenExchange, clearOauthKeys sess)

/-- An absent value is falsy. -/
theorem truthy_none : truthy none = false := rfl

/-- An empty string is falsy. -/
theorem truthy_some_empty : truthy (some "") = false := rfl

/-- A non-empty string is truthy. -/
theorem truthy_some_of_ne {s : String} (h : s ≠ "") : truthy (some s) = true := by
  cases hb : s.isEmpty with
  | false => simp [truthy, hb]
  | true => exact absurd ((String.isEmpty_iff s).mp hb) h

/-- C1, counterexample: a Google callback carrying state `"attacker"`
while the session stores state `"issued"` (no provider error, code
present) is NOT rejected — the handler proceeds straight to the token
exchange, contradicting the claim that every mismatched-state callback
terminates as Rejected with no token exchange attempted. -/
theorem C1_google_state_counterexample :
    (google_callback_pre ⟨some "issued", some "google"⟩
        (some "c0de") (some "attacker") none none).1
      = CallbackStep.tokenExchange := by
  rfl

/-- C1 (amended): only the Microsoft callback enforces the CSRF state.
For every Microsoft callback with code present and no provider error:
if the received state is absent it is rejected with HTTP 400 (missing
parameter); if the received state differs from the stored one, or no
truthy stored state exists (in particular after the state was already
consumed), it is rejected with HTTP 400 "Invalid state" before any token
exchange; and a successful validation consumes the stored state, so an
identical second callback (state replay) is always rejected.  The Google
callback never rejects on state mismatch: it deletes the stored state and
proceeds to the token exchange. -/
theorem C1_state_validation (sess : Session) (code state error : Option String)
    (hcode : truthy code = true) (herr : truthy error = false) :
    (truthy state = false →
      (microsoft_callback_pre sess code state error).1
        = CallbackStep.httpError 400 "Missing code or state parameter")
  ∧ (truthy sess.state = false ∨ sess.state ≠ state →
      (microsoft_callback_pre sess code state error).1
        ≠ CallbackStep.tokenExchange)
  ∧ (truthy state = true → (truthy sess.state = false ∨ sess.state ≠ state) →
      (microsoft_callback_pre sess code state error).1
        = CallbackStep.httpError 400 "Invalid state parameter. Please try logging in again.")
  ∧ ((microsoft_callback_pre sess code state error).1 = CallbackStep.tokenExchange →
      (microsoft_callback_pre (microsoft_callback_pre sess code state error).2
          code state error).1
        = CallbackStep.httpError 400 "Invalid state parameter. Please try logging in again.")
  ∧ ((google_callback_pre sess code state error none).1 = CallbackStep.tokenExchange) := by
  refine ⟨?_, ?_, ?_, ?_, ?_⟩
  · intro hstate
    simp [microsoft_callback_pre, hcode, herr, hstate]
  · intro hmis
    rcases hmis with hmis | hmis
    · by_cases hstate : truthy state = true
      · simp [microsoft_callback_pre, hcode, herr, hstate, hmis]
      · simp [microsoft_callback_pre, hcode, herr,
          Bool.eq_false_iff.mpr hstate]
    · by_cases hstate : truthy state = true
      · by_cases hss : truthy sess.state = true
        · simp [microsoft_callback_pre, hcode, herr, hstate, hss, hmis]
        · simp [microsoft_callback_pre, hcode, herr, hstate,
            Bool.eq_false_iff.mpr hss]
      · simp [microsoft_callback_pre, hcode, herr,
          Bool.eq_false_iff.mpr hstate]
  · intro hstate hmis
    rcases hmis with hmis | hmis
    · simp [microsoft_callback_pre, hcode, herr, hstate, hmis]
    · by_cases hss : truthy sess.state = true
      · simp [microsoft_callback_pre, hcode, herr, hstate, hss, hmis]
      · simp [microsoft_callback_pre, hcode, herr, hstate,
          Bool.eq_false_iff.mpr hss]
  · intro hok
    have hstate : truthy state = true := by
      by_contra hstate
      simp [microsoft_callback_pre, hcode, herr,
        Bool.eq_false_iff.mpr hstate] at hok
    have hsess : (microsoft_callback_pre sess code state error).2 = ⟨none, none⟩ := by
      by_cases hss : truthy sess.state = true
      · by_cases heq : sess.state = state
        · simp [microsoft_callback_pre, hcode, herr, hstate, hss, heq, clearOauthKeys]
        · simp [microsoft_callback_pre, hcode, herr, hstate, hss, heq, clearOauthKeys] at hok
      · simp [microsoft_callback_pre, hcode, herr, hstate,
          Bool.eq_false_iff.mpr hss, clearOauthKeys]
    rw [hsess]
    simp [microsoft_callback_pre, hcode, herr, hstate, truthy_none]
  · simp [google_callback_pre, hcode, herr, truthy_none]

/-- Witness for `C1_state_validation`: session state `"issued"`, received
state `"other"`, code `"c"`, no error — the Microsoft callback rejects
with the invalid-state HTTP 400. -/
theorem C1_state_validation_witness :
    (microsoft_callback_pre ⟨some "issued", some "microsoft"⟩
        (some "c") (some "other") none).1
      = CallbackStep.httpError 400 "Invalid state parameter. Please try logging in again." :=
  (C1_state_validation ⟨some "issued", some "microsoft"⟩
      (some "c") (some "other") none (by decide) (by decide)).2.2.1
    (by decide) (by decide)

/-! ## Profile extraction from the provider user-info response
(`app/routes/auth.py` lines 229-243 and 411-422) -/

/-- Fields the Google user-info JSON may carry, as the code reads them
(`user_data.get(...)`); `none` models an absent key (or JSON null). -/
structure GoogleUserData where
  email : Option String
  id : Option String
  name : Option String
  picture : Option String
deriving DecidableEq, Repr

/-- Fields the Microsoft Graph `/me` JSON may carry, as the code reads
them. -/
structure MicrosoftUserData where
  mail : Option String
  userPrincipalName : Option String
  id : Option String
  displayName : Option String
  givenName : Option String
  surname : Option String
deriving DecidableEq, Repr

/-- Outcome of the extraction step. -/
inductive ExtractResult
  /-- the normalized profile: email, display name, external id, picture -/
  | ok (email displayName : String) (oauthId : Option String) (picture : Option String)
  /-- `raise HTTPException(status_code, detail)` -/
  | httpError (status : Nat) (detail : String)
  /-- an uncaught Python exception (crash, surfaces as HTTP 500) -/
  | pythonError (exc : String)
deriving DecidableEq, Repr

/-- Google extraction (`app/routes/auth.py` lines 229-243).  Faithful to
the source ordering: line 232 computes
`display_name = user_data.get("name") or email.split("@")[0]` BEFORE the
`if not email` check at line 239, so when `name` is falsy and `email` is
`None` the right operand evaluates `None.split` and raises
`AttributeError`; only afterwards does a falsy email raise HTTP 400. -/
def google_extract (d : GoogleUserData) : ExtractResult :=
  if truthy d.name then
    if truthy d.email then
      ExtractResult.ok (d.email.getD "") (d.name.getD "") d.id d.picture
    else
      ExtractResult.httpError 400 "Email not provided by Google"
  else
    match d.email with
    | none => ExtractResult.pythonError "AttributeError"
    | some e =>
      if truthy (some e) then
        ExtractResult.ok e (pyLocalPart e) d.id d.picture
      else
        ExtractResult.httpError 400 "Email not provided by Google"

/-- Microsoft extraction (`app/routes/auth.py` lines 411-422):
`email = mail or userPrincipalName`;
`display_name = displayName or givenName + " " + surname`, falling back to
the email local part (guarded: `if email else "User"`) when blank; a falsy
email raises HTTP 400.  No unguarded attribute access exists on this
path. -/
def microsoft_extract (d : MicrosoftUserData) : ExtractResult :=
  let email := if truthy d.mail then d.mail else d.userPrincipalName
  let display0 :=
    if truthy d.displayName then d.displayName.getD ""
    else d.givenName.getD "" ++ " " ++ d.surname.getD ""
  let display :=
    if (pyStrip display0).isEmpty then
      match email with
      | some e => if !e.isEmpty then pyLocalPart e else "User"
      | none => "User"
    else display0
  if truthy email then
    ExtractResult.ok (email.getD "") display d.id none
  else
    ExtractResult.httpError 400 "Email not provided by Microsoft"

/-- C4, the code at the failing input: a Google user-info response with no
email and no name crashes with `AttributeError` (uncaught, an HTTP 500)
instead of the HTTP 400 rejection the claim requires, because the
display-name fallback dereferences the absent email before the
missing-email check runs. -/
theorem C4_google_missing_email_crash :
    google_extract ⟨none, none, none, none⟩
      = ExtractResult.pythonError "AttributeError"
  ∧ google_extract ⟨none, none, some "Some Name", some "pic"⟩
      = ExtractResult.httpError 400 "Email not provided by Google"
  ∧ microsoft_extract ⟨none, none, none, none, none, none⟩
      = ExtractResult.httpError 400 "Email not provided by Microsoft" := by
  exact ⟨rfl, rfl, rfl⟩

/-! ## Identity resolution: find-or-create by email
(`app/routes/auth.py` lines 245-276 and 424-448)

Both callbacks run the same logic: look the email up with plain SQL
equality; when found, set `last_login_at` and overwrite
`profile_picture_url` only when the provider supplied a truthy one; when
absent, insert a new row with the provider fields set. -/

/-- Find-or-create step shared by the two callbacks.  `newId` stands for
the generated UUID primary key of an inserted row; `now` is
`datetime.utcnow()`.  Returns the resolved user and the updated table. -/
def oauth_resolve (db : List User) (provider : String) (oauthId : Option String)
    (email displayName : String) (picture : Option String) (now : Nat)
    (newId : String) : User × List User :=
  match findByEmail db email with
  | some u =>
    let u' : User :=
      { u with
        last_login_at := some now
        profile_picture_url := if truthy picture then picture else u.profile_picture_url }
    (u', updateFirstByEmail db email u')
  | none =>
    let u : User :=
      { id := newId
        email := email
        password_hash := none
        oauth_provider := some provider
        oauth_id := some (oauthId.getD "None")
        display_name := displayName
        profile_picture_url := picture
        last_login_at := some now
        email_verified := false }
    (u, db ++ [u])

/-- Number of rows whose `email` column equals the argument exactly. -/
def countByEmail (db : List User) (email : String) : Nat :=
  db.countP (fun u => u.email = email)

/-- A failed email lookup means no row carries that exact email. -/
theorem findByEmail_eq_none {db : List User} {email : String}
    (h : findByEmail db email = none) : ∀ v ∈ db, v.email ≠ email := by
  intro v hv
  simpa using List.find?_eq_none.mp h v hv

/-- Looking up an email after appending a row carrying it, when no prior
row did, finds the appended row. -/
theorem findByEmail_append_new {db : List User} {email : String} {u : User}
    (h : findByEmail db email = none) (hu : u.email = email) :
    findByEmail (db ++ [u]) email = some u := by
  unfold findByEmail at h ⊢
  rw [List.find?_append, h]
  simp [List.find?_cons_of_pos, hu]

/-- Replacing-by-email in a table whose only matching row is the appended
one rewrites exactly that row. -/
theorem updateFirst_append_new {db : List User} {email : String} {u u' : User}
    (h : ∀ v ∈ db, v.email ≠ email) (hu : u.email = email) :
    updateFirstByEmail (db ++ [u]) email u' = db ++ [u'] := by
  induction db with
  | nil => simp [updateFirstByEmail, hu]
  | cons v rest ih =>
    have hv : v.email ≠ email := h v (by simp)
    simp [updateFirstByEmail, hv, ih (fun w hw => h w (by simp [hw]))]

/-- A failed email lookup means the row count for that email is zero. -/
theorem countByEmail_eq_zero {db : List User} {email : String}
    (h : findByEmail db email = none) : countByEmail db email = 0 := by
  rw [countByEmail, List.countP_eq_zero]
  intro v hv
  simpa using findByEmail_eq_none h v hv

/-- Appending one row carrying a previously-absent email makes its count
exactly one. -/
theorem countByEmail_append_one {db : List User} {email : String} {u : User}
    (h : findByEmail db email = none) (hu : u.email = email) :
    countByEmail (db ++ [u]) email = 1 := by
  rw [countByEmail, List.countP_append]
  have h0 : db.countP (fun u => u.email = email) = 0 := countByEmail_eq_zero h
  rw [h0]
  simp [hu]

/-- C5, counterexample: the lookup `User.email == email` is byte-exact
(binary collation, no lowercasing anywhere in the flow), so a first OAuth
login with `"Alice@Example.com"` followed by a second with
`"alice@example.com"` — the same address up to letter case — creates TWO
user rows, contradicting the claimed case-insensitive uniqueness. -/
theorem C5_case_counterexample :
    ((oauth_resolve
        (oauth_resolve [] "google" (some "g1") "Alice@Example.com" "Alice" none 10 "id1").2
        "microsoft" (some "m1") "alice@example.com" "Alice" none 20 "id2").2).length = 2
  ∧ ("Alice@Example.com".data.map Char.toLower) = "alice@example.com".data := by
  exact ⟨rfl, by decide⟩

/-- C5 (amended): email is a byte-exact (case-sensitive) identity key.
For two successful OAuth logins presenting the identical email string —
any providers, starting from a table with no row for that email — exactly
one row keyed by that email exists after each login (the second login
updates the existing row rather than creating one, preserving its id),
and `last_login_at` moves from the first login time to the second, so it
strictly increases whenever the clock did. -/
theorem C5_email_exact_key (db : List User) (email p1 p2 n1 n2 : String)
    (id1 id2 pic1 pic2 : Option String) (t1 t2 : Nat) (nid1 nid2 : String)
    (hfresh : findByEmail db email = none) (ht : t1 < t2) :
    countByEmail (oauth_resolve db p1 id1 email n1 pic1 t1 nid1).2 email = 1
  ∧ countByEmail (oauth_resolve (oauth_resolve db p1 id1 email n1 pic1 t1 nid1).2
        p2 id2 email n2 pic2 t2 nid2).2 email = 1
  ∧ (oauth_resolve (oauth_resolve db p1 id1 email n1 pic1 t1 nid1).2
        p2 id2 email n2 pic2 t2 nid2).1.id
      = (oauth_resolve db p1 id1 email n1 pic1 t1 nid1).1.id
  ∧ (oauth_resolve db p1 id1 email n1 pic1 t1 nid1).1.last_login_at = some t1
  ∧ (oauth_resolve (oauth_resolve db p1 id1 email n1 pic1 t1 nid1).2
        p2 id2 email n2 pic2 t2 nid2).1.last_login_at = some t2
  ∧ t1 < t2 := by
  have hall : ∀ v ∈ db, v.email ≠ email := findByEmail_eq_none hfresh
  have h1 : oauth_resolve db p1 id1 email n1 pic1 t1 nid1
      = (⟨nid1, email, none, some p1, some (id1.getD "None"), n1, pic1, some t1, false⟩,
         db ++ [(⟨nid1, email, none, some p1, some (id1.getD "None"), n1, pic1, some t1, false⟩ : User)]) := by
    simp [oauth_resolve, hfresh]
  have hfind2 : findByEmail
      (db ++ [(⟨nid1, email, none, some p1, some (id1.getD "None"), n1, pic1, some t1, false⟩ : User)]) email
      = some ⟨nid1, email, none, some p1, some (id1.getD "None"), n1, pic1, some t1, false⟩ :=
    findByEmail_append_new hfresh rfl
  refine ⟨?_, ?_, ?_, ?_, ?_, ht⟩
  · rw [h1]
    exact countByEmail_append_one hfresh rfl
  · rw [h1]
    simp only [oauth_resolve, hfind2]
    rw [updateFirst_append_new hall rfl]
    exact countByEmail_append_one hfresh rfl
  · rw [h1]
    simp only [oauth_resolve, hfind2]
  · rw [h1]
  · rw [h1]
    simp only [oauth_resolve, hfind2]

/-- Witness for `C5_email_exact_key`: empty table, email `"a@b.c"`,
logins at times 1 and 2. -/
theorem C5_email_exact_key_witness :
    countByEmail (oauth_resolve
        (oauth_resolve [] "google" (some "g") "a@b.c" "A" none 1 "i1").2
        "google" (some "g") "a@b.c" "A" none 2 "i2").2 "a@b.c" = 1 :=
  (C5_email_exact_key [] "a@b.c" "google" "google" "A" "A"
      (some "g") (some "g") none none 1 2 "i1" "i2" rfl (by decide)).2.1

/-! ## Microsoft profile picture (`app/routes/auth.py` lines 400-409) -/

/-- Value of `profile_picture` after the Microsoft photo fetch: the
success branch assigns `None` ("Microsoft returns image binary, we'll
skip it for now", line 406-407) and the bare `except` also assigns
`None` (line 409), so it is unconditionally `None`. -/
def microsoft_profile_picture : Option String := none

/-- Replacing the first row matching an email with a row carrying the
same picture leaves the picture column of the whole table unchanged. -/
theorem map_pic_updateFirst {db : List User} {email : String} {u0 u' : User}
    (hfind : findByEmail db email = some u0)
    (hpic : u'.profile_picture_url = u0.profile_picture_url) :
    (updateFirstByEmail db email u').map (fun u => u.profile_picture_url)
      = db.map (fun u => u.profile_picture_url) := by
  induction db with
  | nil => simp [findByEmail] at hfind
  | cons v rest ih =>
    by_cases hv : v.email = email
    · have hv0 : u0 = v := by
        unfold findByEmail at hfind
        rw [List.find?_cons_of_pos _ (by simp [hv])] at hfind
        exact (Option.some.inj hfind).symm
      subst hv0
      simp [updateFirstByEmail, hv, hpic]
    · have hrest : findByEmail rest email = some u0 := by
        unfold findByEmail at hfind ⊢
        rwa [List.find?_cons_of_neg _ (by simp [hv])] at hfind
      simp [updateFirstByEmail, hv, ih hrest]

/-- C10: after every successful Microsoft OAuth login the flow never sets
or changes `profile_picture_url`: the picture passed to resolution is
unconditionally `None`, so when a row for the email exists the picture
column of the whole table is unchanged (and the resolved user keeps their
prior picture), and when no row exists the created row has a null
picture. -/
theorem C10_microsoft_picture_frame (db : List User) (oid : Option String)
    (email dn : String) (now : Nat) (nid : String) :
    (∀ u0, findByEmail db email = some u0 →
      (oauth_resolve db "microsoft" oid email dn microsoft_profile_picture now nid).2.map
          (fun u => u.profile_picture_url)
        = db.map (fun u => u.profile_picture_url)
      ∧ (oauth_resolve db "microsoft" oid email dn microsoft_profile_picture now nid).1.profile_picture_url
        = u0.profile_picture_url)
  ∧ (findByEmail db email = none →
      (oauth_resolve db "microsoft" oid email dn microsoft_profile_picture now nid).2.map
          (fun u => u.profile_picture_url)
        = db.map (fun u => u.profile_picture_url) ++ [none]
      ∧ (oauth_resolve db "microsoft" oid email dn microsoft_profile_picture now nid).1.profile_picture_url
        = none) := by
  constructor
  · intro u0 hu0
    constructor
    · simp only [oauth_resolve, hu0, microsoft_profile_picture, truthy_none,
        Bool.false_eq_true, if_false]
      exact map_pic_updateFirst hu0 rfl
    · simp [oauth_resolve, hu0, microsoft_profile_picture, truthy_none]
  · intro hnone
    constructor
    · simp [oauth_resolve, hnone, microsoft_profile_picture]
    · simp [oauth_resolve, hnone, microsoft_profile_picture]

/-- Witness for `C10_microsoft_picture_frame`: a one-row table whose user
carries picture `"old.png"`; a Microsoft login for that email leaves the
picture column exactly as it was. -/
theorem C10_microsoft_picture_frame_witness :
    (oauth_resolve
        [⟨"i1", "a@b.c", none, some "google", some "g", "A", some "old.png", some 1, false⟩]
        "microsoft" (some "m") "a@b.c" "A" microsoft_profile_picture 2 "i2").2.map
        (fun u => u.profile_picture_url)
      = [some "old.png"] :=
  ((C10_microsoft_picture_frame
      [⟨"i1", "a@b.c", none, some "google", some "g", "A", some "old.png", some 1, false⟩]
      (some "m") "a@b.c" "A" 2 "i2").1
    ⟨"i1", "a@b.c", none, some "google", some "g", "A", some "old.png", some 1, false⟩
    rfl).1

/-! ## Password login and registration
(`app/routes/auth.py` lines 466-567 and 570-664)

The credential-verifier module `app/utils/password.py` is imported by the
routes but is not part of the sources; per the spec (section 4.1) it is a
salted one-way digest with a boolean verifier.  Both handlers are
therefore parameterized over the `hash_password` / `verify_password`
functions, which the control flow treats as opaque. -/

/-- Outcome of the `POST /auth/login` handler. -/
inductive LoginOutcome
  /-- re-render the login page with `error_message` set -/
  | renderError (msg : String)
  /-- 302 to `/dashboard` with a fresh session cookie for the user -/
  | redirectDashboard (u : User)
deriving DecidableEq, Repr

/-- `login` (`app/routes/auth.py` lines 570-653): missing form fields re-
render with a required-fields message; an unknown email re-renders with a
no-account message; a truthy `oauth_provider` re-renders with a message
interpolating that provider twice; an absent `password_hash` or a failed
`verify_password` re-renders with an incorrect-password message; otherwise
`last_login_at` is set to now, committed, and the user is returned with a
dashboard redirect.  Returns the outcome and the resulting table. -/
def login (verify_password : String → String → Bool) (db : List User)
    (email password : Option String) (now : Nat) : LoginOutcome × List User :=
  if !truthy email || !truthy password then
    (LoginOutcome.renderError "Email and password are required", db)
  else
    let e := email.getD ""
    match findByEmail db e with
    | none =>
      (LoginOutcome.renderError
        "No account found with this email. Please register first.", db)
    | some u =>
      if truthy u.oauth_provider then
        let p := u.oauth_provider.getD ""
        (LoginOutcome.renderError
          ("This email is registered with " ++ p ++ ". Please use \x27" ++ p
            ++ "\x27 login instead."), db)
      else if !truthy u.password_hash
          || !verify_password (password.getD "") (u.password_hash.getD "") then
        (LoginOutcome.renderError "Incorrect password. Please try again.", db)
      else
        let u' : User := { u with last_login_at := some now }
        (LoginOutcome.redirectDashboard u', updateFirstByEmail db e u')

/-- Outcome of the `POST /auth/register` handler. -/
inductive RegisterOutcome
  /-- re-render the login page with `error_message` set -/
  | renderError (msg : String)
  /-- 302 to `/dashboard` with a fresh session cookie for the new user -/
  | redirectDashboard (u : User)
  /-- an uncaught Python exception -/
  | pythonError (exc : String)
deriving DecidableEq, Repr

/-- Result of `register`: the outcome, the resulting table, and how many
times `hash_password` was invoked on the way (the source calls it exactly
once, on the success path, after all validation). -/
structure RegisterResult where
  outcome : RegisterOutcome
  db : List User
  hashCalls : Nat
deriving DecidableEq, Repr

/-- Row inserted by the success path of `register` (`app/routes/auth.py`
lines 523-536): hashed password, both OAuth fields null,
`email_verified=False`, `last_login_at` stamped now; the display name is
the submitted one or the email local part when falsy. -/
def registeredUser (hash_password : String → String) (email password : String)
    (display_name : Option String) (now : Nat) (newId : String) : User :=
  { id := newId
    email := email
    password_hash := some (hash_password password)
    oauth_provider := none
    oauth_id := none
    display_name := if truthy display_name then display_name.getD ""
      else pyLocalPart email
    profile_picture_url := none
    last_login_at := some now
    email_verified := false }

/-- `register` (`app/routes/auth.py` lines 466-554): the display-name
fallback `email.split("@")[0]` runs before validation (crashing when both
`display_name` and `email` are absent); missing fields re-render with a
required-fields message; a password under 8 characters re-renders with the
weak-password message BEFORE any hashing; an existing row for the email
re-renders with an already-exists message, still without hashing; otherwise
the password is hashed once and a row with null OAuth fields is inserted. -/
def register (hash_password : String → String) (db : List User)
    (email password display_name : Option String) (now : Nat)
    (newId : String) : RegisterResult :=
  if truthy display_name = false ∧ email = none then
    ⟨RegisterOutcome.pythonError "AttributeError", db, 0⟩
  else
    if !truthy email || !truthy password then
      ⟨RegisterOutcome.renderError "Email and password are required", db, 0⟩
    else if (password.getD "").length < 8 then
      ⟨RegisterOutcome.renderError "Password must be at least 8 characters long", db, 0⟩
    else
      let e := email.getD ""
      match findByEmail db e with
      | some _ =>
        ⟨RegisterOutcome.renderError
          "An account with this email already exists. Please sign in instead.", db, 0⟩
      | none =>
        let u : User := registeredUser hash_password e (password.getD "")
          display_name now newId
        ⟨RegisterOutcome.redirectDashboard u, db ++ [u], 1⟩

/-- C7: registration over a provided (non-empty) email and password.
A password under 8 characters re-renders with the weak-password message
with `hash_password` never invoked; an existing row for the email
re-renders with the already-exists message, again without hashing;
otherwise a user whose `oauth_provider` and `oauth_id` are both null is
created with the hashed password, appended to the table and returned. -/
theorem C7_register (hash_password : String → String) (db : List User)
    (email password : String) (display_name : Option String) (now : Nat)
    (newId : String) (hemail : email ≠ "") (hpassword : password ≠ "") :
    (password.length < 8 →
      register hash_password db (some email) (some password) display_name now newId
        = ⟨RegisterOutcome.renderError "Password must be at least 8 characters long",
            db, 0⟩)
  ∧ (¬ password.length < 8 → ∀ u0, findByEmail db email = some u0 →
      register hash_password db (some email) (some password) display_name now newId
        = ⟨RegisterOutcome.renderError
            "An account with this email already exists. Please sign in instead.",
            db, 0⟩)
  ∧ (¬ password.length < 8 → findByEmail db email = none →
      register hash_password db (some email) (some password) display_name now newId
        = ⟨RegisterOutcome.redirectDashboard
            (registeredUser hash_password email password display_name now newId),
           db ++ [registeredUser hash_password email password display_name now newId],
           1⟩
      ∧ (registeredUser hash_password email password display_name now newId).oauth_provider
          = none
      ∧ (registeredUser hash_password email password display_name now newId).oauth_id
          = none
      ∧ (registeredUser hash_password email password display_name now newId).password_hash
          = some (hash_password password)) := by
  have he : truthy (some email) = true := truthy_some_of_ne hemail
  have hp : truthy (some password) = true := truthy_some_of_ne hpassword
  refine ⟨?_, ?_, ?_⟩
  · intro hlt
    simp [register, he, hp, hlt]
  · intro hge u0 hu0
    simp [register, he, hp, hge, hu0]
  · intro hge hnone
    refine ⟨?_, rfl, rfl, rfl⟩
    simp [register, he, hp, hge, hnone]

/-- Witness for `C7_register`: registering `"a@b.c"` with the 9-character
password `"longpass9"` against an empty table creates the user. -/
theorem C7_register_witness :
    register (fun pw => pw ++ "#") [] (some "a@b.c") (some "longpass9")
        (some "Al") 5 "i9"
      = ⟨RegisterOutcome.redirectDashboard
          (registeredUser (fun pw => pw ++ "#") "a@b.c" "longpass9" (some "Al") 5 "i9"),
         [registeredUser (fun pw => pw ++ "#") "a@b.c" "longpass9" (some "Al") 5 "i9"],
         1⟩ :=
  ((C7_register (fun pw => pw ++ "#") [] "a@b.c" "longpass9" (some "Al") 5 "i9"
      (by decide) (by decide)).2.2 (by decide) rfl).1

/-- C8: every failed password login — missing fields, unknown email,
OAuth-registered account, or failed password verification — leaves the
user table entirely unchanged; in particular every row keeps its prior
`last_login_at`. -/
theorem C8_failed_login_frame (verify_password : String → String → Bool)
    (db : List User) (email password : Option String) (now : Nat) (msg : String)
    (h : (login verify_password db email password now).1
      = LoginOutcome.renderError msg) :
    (login verify_password db email password now).2 = db := by
  simp only [login] at h ⊢
  by_cases h1 : (!truthy email || !truthy password) = true
  · simp only [if_pos h1]
  · simp only [if_neg h1] at h ⊢
    cases hf : findByEmail db (email.getD "") with
    | none => simp only [hf]
    | some u =>
      simp only [hf] at h ⊢
      by_cases h2 : truthy u.oauth_provider = true
      · simp only [if_pos h2]
      · simp only [if_neg h2] at h ⊢
        by_cases h3 : (!truthy u.password_hash
            || !verify_password (password.getD "") (u.password_hash.getD "")) = true
        · simp only [if_pos h3]
        · simp only [if_neg h3] at h
          simp at h

/-- Witness for `C8_failed_login_frame`: a login against a one-row table
whose verifier rejects everything fails and leaves the table unchanged. -/
theorem C8_failed_login_frame_witness :
    (login (fun _ _ => false)
        [⟨"i1", "a@b.c", some "h", none, none, "A", none, some 1, false⟩]
        (some "a@b.c") (some "pw") 9).2
      = [⟨"i1", "a@b.c", some "h", none, none, "A", none, some 1, false⟩] :=
  C8_failed_login_frame (fun _ _ => false)
    [⟨"i1", "a@b.c", some "h", none, none, "A", none, some 1, false⟩]
    (some "a@b.c") (some "pw") 9 "Incorrect password. Please try again." rfl

/-- C6: password login over a provided (non-empty) email and password.
If no user has that email the outcome is the no-account (NotFound)
message; else if the user's `oauth_provider` is set (truthy) the outcome
is a wrong-method message that interpolates that provider's name; else if
`password_hash` is absent or verification fails the outcome is the
incorrect-password message; otherwise `last_login_at` is set to now, the
change is persisted into the table, and that user is returned. -/
theorem C6_password_login (verify_password : String → String → Bool)
    (db : List User) (email password : String) (now : Nat)
    (hemail : email ≠ "") (hpassword : password ≠ "") :
    (findByEmail db email = none →
      login verify_password db (some email) (some password) now
        = (LoginOutcome.renderError
            "No account found with this email. Please register first.", db))
  ∧ (∀ u p, findByEmail db email = some u → u.oauth_provider = some p → p ≠ "" →
      login verify_password db (some email) (some password) now
        = (LoginOutcome.renderError
            ("This email is registered with " ++ p ++ ". Please use \x27" ++ p
              ++ "\x27 login instead."), db))
  ∧ (∀ u, findByEmail db email = some u → truthy u.oauth_provider = false →
      (u.password_hash = none
        ∨ ∀ h, u.password_hash = some h → verify_password password h = false) →
      login verify_password db (some email) (some password) now
        = (LoginOutcome.renderError "Incorrect password. Please try again.", db))
  ∧ (∀ u h, findByEmail db email = some u → truthy u.oauth_provider = false →
      u.password_hash = some h → h ≠ "" → verify_password password h = true →
      login verify_password db (some email) (some password) now
        = (LoginOutcome.redirectDashboard { u with last_login_at := some now },
           updateFirstByEmail db email { u with last_login_at := some now })) := by
  have he : truthy (some email) = true := truthy_some_of_ne hemail
  have hp : truthy (some password) = true := truthy_some_of_ne hpassword
  refine ⟨?_, ?_, ?_, ?_⟩
  · intro hnone
    simp [login, he, hp, hnone]
  · intro u p hu hprov hpne
    simp [login, he, hp, hu, hprov, truthy_some_of_ne hpne]
  · intro u hu hprov hbad
    cases hph : u.password_hash with
    | none => simp [login, he, hp, hu, hprov, hph, truthy_none]
    | some h =>
      rcases hbad with hnoh | hfail
      · rw [hph] at hnoh
        exact absurd hnoh (by simp)
      · by_cases hne : h = ""
        · subst hne
          simp [login, he, hp, hu, hprov, hph, truthy_some_empty]
        · simp [login, he, hp, hu, hprov, hph, truthy_some_of_ne hne,
            hfail h hph]
  · intro u h hu hprov hh hhne hver
    simp [login, he, hp, hu, hprov, hh, truthy_some_of_ne hhne, hver]

/-- Witness for `C6_password_login`: a one-row table with an OAuth-less
user whose hash the verifier accepts; login succeeds and stamps
`last_login_at`. -/
theorem C6_password_login_witness :
    login (fun pw h => pw ++ "#" = h)
        [⟨"i1", "a@b.c", some "pw1#", none, none, "A", none, some 1, false⟩]
        (some "a@b.c") (some "pw1") 7
      = (LoginOutcome.redirectDashboard
          ⟨"i1", "a@b.c", some "pw1#", none, none, "A", none, some 7, false⟩,
         [⟨"i1", "a@b.c", some "pw1#", none, none, "A", none, some 7, false⟩]) :=
  (C6_password_login (fun pw h => pw ++ "#" = h)
      [⟨"i1", "a@b.c", some "pw1#", none, none, "A", none, some 1, false⟩]
      "a@b.c" "pw1" 7 (by decide) (by decide)).2.2.2
    ⟨"i1", "a@b.c", some "pw1#", none, none, "A", none, some 1, false⟩
    "pw1#" rfl rfl rfl (by decide) (by decide)

/-! ## Identity resolution from request credentials
(`app/utils/auth.py` lines 69-124, `app/middleware.py` lines 19-42)

`get_current_user` reads the `Authorization` header, else the
`session_token` cookie.  The raw token string on the wire is mapped to
its parse by the environment `tokens`. -/

/-- Result of `get_current_user`: a resolved user, `None` (the request
proceeds unauthenticated), or an exception escaping the function — the
`except ValueError` around the Bearer branch catches neither the
`HTTPException` raised for an expired token (`raised`) nor the
`AttributeError` raised for a malformed or badly-signed one via the
nonexistent `pyjwt.JWTError` (`crashed`). -/
inductive AuthResolution
  | user (u : User)
  | anon
  | raised (status : Nat) (detail : String)
  | crashed (exc : String)
deriving DecidableEq, Repr

/-- Whether an exception escapes `get_current_user` (either an
`HTTPException` or a plain Python exception). -/
def escapes : AuthResolution → Bool
  | AuthResolution.raised _ _ => true
  | AuthResolution.crashed _ => true
  | _ => false

/-- Cookie half of `get_current_user` (`app/utils/auth.py` lines
95-124): a truthy `session_token` cookie is decoded inside a
`try/except Exception` — every decode failure (the expired
`HTTPException` as well as the `AttributeError` from the dead
`pyjwt.JWTError` clause) is swallowed and the function returns `None`;
a decoded subject is looked up, a missing user falls through to
`return None`. -/
def cookie_branch (secret : String) (now : Nat) (tokens : String → Artifact)
    (db : List User) (session_token : Option String) : AuthResolution :=
  match session_token with
  | none => AuthResolution.anon
  | some c =>
    if c.isEmpty then AuthResolution.anon
    else
      match decode_access_token secret now (tokens c) with
      | Except.error _ => AuthResolution.anon
      | Except.ok payload =>
        if payload.sub.isEmpty then AuthResolution.anon
        else
          match findById db payload.sub with
          | some u => AuthResolution.user u
          | none => AuthResolution.anon

/-- `get_current_user` (`app/utils/auth.py` lines 69-124).  Bearer
branch: `authorization.split()` raising `ValueError` (word count ≠ 2) is
caught and falls through to the cookie; a non-bearer scheme falls
through; neither exception `decode_access_token` can raise is a
`ValueError`, so both escape — `HTTPException(401)` for an expired token
and `AttributeError` for a malformed or badly-signed one; a decoded
truthy subject is looked up and `return user` returns even a `None`
lookup result (unauthenticated, no cookie fallback); a falsy subject
falls through to the cookie branch. -/
def get_current_user (secret : String) (now : Nat) (tokens : String → Artifact)
    (db : List User) (authorization session_token : Option String) : AuthResolution :=
  match authorization with
  | none => cookie_branch secret now tokens db session_token
  | some a =>
    if a.isEmpty then cookie_branch secret now tokens db session_token
    else
      match pyWords a with
      | [scheme, tok] =>
        if pyLower scheme = "bearer" then
          match decode_access_token secret now (tokens tok) with
          | Except.error DecodeFailure.expired =>
            AuthResolution.raised 401 "Token has expired"
          | Except.error DecodeFailure.attributeError =>
            AuthResolution.crashed "AttributeError"
          | Except.ok payload =>
            if payload.sub.isEmpty then
              cookie_branch secret now tokens db session_token
            else
              match findById db payload.sub with
              | some u => AuthResolution.user u
              | none => AuthResolution.anon
        else cookie_branch secret now tokens db session_token
      | _ => cookie_branch secret now tokens db session_token

/-- `UserContextMiddleware.dispatch` (`app/middleware.py` lines 19-42):
`get_current_user` runs inside `try/except Exception`, so any raise is
logged and the user slot stays `None`; the request always proceeds. -/
def dispatch_user (secret : String) (now : Nat) (tokens : String → Artifact)
    (db : List User) (authorization session_token : Option String) : Option User :=
  match get_current_user secret now tokens db authorization session_token with
  | AuthResolution.user u => some u
  | _ => none

/-- C3, counterexample: a request whose `Authorization: Bearer` header
carries an expired artifact makes `get_current_user` raise HTTP 401 out
of this layer (the `except ValueError` does not catch `HTTPException`),
and one carrying a malformed artifact makes it crash with
`AttributeError` (the except clause names `pyjwt.JWTError`, which PyJWT
does not export) — both contradicting the claim that identity resolution
never raises an error and always proceeds unauthenticated. -/
theorem C3_bearer_raises_counterexample :
    get_current_user "k" 10 (fun _ => Artifact.token ⟨"u", 5⟩ (sign "k" "u" 5)) []
        (some "Bearer abc") none
      = AuthResolution.raised 401 "Token has expired"
  ∧ get_current_user "k" 10 (fun _ => Artifact.malformed "junk") []
        (some "Bearer abc") none
      = AuthResolution.crashed "AttributeError" := by
  exact ⟨rfl, rfl⟩

/-- C3 (amended): failures on the cookie channel are always swallowed —
no exception ever escapes `cookie_branch`, whatever the artifact or
subject — and with no Authorization header identity resolution is
exactly the cookie branch; but a well-formed `Bearer` header whose token
is expired makes `get_current_user` raise HTTP 401 "Token has expired",
and one whose token is malformed or badly signed makes it crash with
`AttributeError` (via the nonexistent `pyjwt.JWTError`), while a valid
Bearer token whose subject matches no user resolves to unauthenticated
without raising; the session-context middleware catches every escaping
exception, leaving the request unauthenticated. -/
theorem C3_identity_resolution (secret : String) (now : Nat)
    (tokens : String → Artifact) (db : List User)
    (authorization session_token : Option String) :
    escapes (cookie_branch secret now tokens db session_token) = false
  ∧ (authorization = none →
      get_current_user secret now tokens db authorization session_token
        = cookie_branch secret now tokens db session_token)
  ∧ (∀ a scheme tok, authorization = some a → a.isEmpty = false →
      pyWords a = [scheme, tok] → pyLower scheme = "bearer" →
      (decode_access_token secret now (tokens tok) = Except.error DecodeFailure.expired →
        get_current_user secret now tokens db authorization session_token
          = AuthResolution.raised 401 "Token has expired")
      ∧ (decode_access_token secret now (tokens tok)
            = Except.error DecodeFailure.attributeError →
        get_current_user secret now tokens db authorization session_token
          = AuthResolution.crashed "AttributeError")
      ∧ (∀ payload, decode_access_token secret now (tokens tok) = Except.ok payload →
          payload.sub.isEmpty = false → findById db payload.sub = none →
          get_current_user secret now tokens db authorization session_token
            = AuthResolution.anon))
  ∧ (escapes (get_current_user secret now tokens db authorization session_token)
        = true →
      dispatch_user secret now tokens db authorization session_token = none) := by
  have hcb : escapes (cookie_branch secret now tokens db session_token) = false := by
    unfold cookie_branch
    split
    · rfl
    · split
      · rfl
      · split
        · rfl
        · split
          · rfl
          · split <;> rfl
  refine ⟨hcb, ?_, ?_, ?_⟩
  · intro hnone
    subst hnone
    rfl
  · intro a scheme tok ha hae hw hbearer
    subst ha
    refine ⟨?_, ?_, ?_⟩
    · intro hdec
      simp [get_current_user, hae, hw, hbearer, hdec]
    · intro hdec
      simp [get_current_user, hae, hw, hbearer, hdec]
    · intro payload hdec hsub hfind
      simp [get_current_user, hae, hw, hbearer, hdec, hsub, hfind]
  · intro h
    unfold dispatch_user
    cases hg : get_current_user secret now tokens db authorization session_token with
    | user u =>
      rw [hg] at h
      exact absurd h (by simp [escapes])
    | anon => rfl
    | raised s d => rfl
    | crashed e => rfl

/-- Witness for `C3_identity_resolution`: a cookie carrying a malformed
artifact resolves to anonymous without raising, and a Bearer header with
an expired token raises 401 which the middleware swallows. -/
theorem C3_identity_resolution_witness :
    get_current_user "k" 9 (fun _ => Artifact.malformed "junk") []
        none (some "cookie-token")
      = cookie_branch "k" 9 (fun _ => Artifact.malformed "junk") []
          (some "cookie-token") :=
  (C3_identity_resolution "k" 9 (fun _ => Artifact.malformed "junk") []
      none (some "cookie-token")).2.1 rfl

/-! ## OAuth initiation (`app/routes/auth.py` lines 76-148 and 305-334) -/

/-- Outcome of the initiation routes. -/
inductive InitOutcome
  /-- 302 redirect to `/auth/login?error=<code>` -/
  | redirectLogin (errorCode : String)
  /-- 302 redirect to the provider authorization URL -/
  | redirectProvider
  /-- `raise HTTPException(status_code, detail)` -/
  | httpError (status : Nat) (detail : String)
deriving DecidableEq, Repr

/-- The hard-coded deleted Google client id fragment checked at
`app/routes/auth.py` line 92. -/
def GOOGLE_DELETED_CLIENT_ID : String :=
  "280308881889-79s4g1bqr6bju23lhtaeq13dj65ciju1"

/-- `google_login` (`app/routes/auth.py` lines 76-148): a missing or
blank client id redirects to login with `oauth_not_configured`; a client
id containing the known deleted id redirects with `deleted_client`; one
not ending in `.apps.googleusercontent.com` redirects with
`invalid_client_id`; a missing or blank client secret redirects with
`oauth_not_configured`; otherwise the browser is redirected to the Google
consent screen. -/
def google_login (client_id client_secret : String) : InitOutcome :=
  if client_id.isEmpty || (pyStrip client_id).isEmpty then
    InitOutcome.redirectLogin "oauth_not_configured"
  else if pyContains client_id GOOGLE_DELETED_CLIENT_ID then
    InitOutcome.redirectLogin "deleted_client"
  else if !pyEndsWith client_id ".apps.googleusercontent.com" then
    InitOutcome.redirectLogin "invalid_client_id"
  else if client_secret.isEmpty || (pyStrip client_secret).isEmpty then
    InitOutcome.redirectLogin "oauth_not_configured"
  else InitOutcome.redirectProvider

/-- `microsoft_login` (`app/routes/auth.py` lines 305-334): a falsy
`MICROSOFT_CLIENT_ID` raises HTTP 500 "Microsoft OAuth not configured";
otherwise the browser is redirected to the Microsoft consent screen —
the client secret is never checked here. -/
def microsoft_login (client_id _client_secret : String) : InitOutcome :=
  if client_id.isEmpty then
    InitOutcome.httpError 500 "Microsoft OAuth not configured"
  else InitOutcome.redirectProvider

/-- C9, counterexample: initiating Microsoft OAuth with no client id
raises HTTP 500 — a 5xx, not the claimed redirect to login — and with a
client id but no client secret it redirects to the provider (the secret
is never checked), not to the login page either. -/
theorem C9_microsoft_500_counterexample :
    microsoft_login "" "s3cret" = InitOutcome.httpError 500 "Microsoft OAuth not configured"
  ∧ microsoft_login "client-id" "" = InitOutcome.redirectProvider := by
  exact ⟨rfl, rfl⟩

/-- C9 (amended): the Google initiation route redirects to the login page
with an explanatory code in every misconfiguration case (blank id,
deleted id, bad id format, blank secret) and never crashes; the Microsoft
initiation route instead raises HTTP 500 when its client id is missing,
and does not check the client secret at all (proceeding to the provider
redirect when only the secret is missing). -/
theorem C9_initiation_config (client_id client_secret : String) :
    ((pyStrip client_id).isEmpty = true →
      google_login client_id client_secret
        = InitOutcome.redirectLogin "oauth_not_configured")
  ∧ ((pyStrip client_id).isEmpty = false →
      pyContains client_id GOOGLE_DELETED_CLIENT_ID = true →
      google_login client_id client_secret
        = InitOutcome.redirectLogin "deleted_client")
  ∧ ((pyStrip client_id).isEmpty = false →
      pyContains client_id GOOGLE_DELETED_CLIENT_ID = false →
      pyEndsWith client_id ".apps.googleusercontent.com" = false →
      google_login client_id client_secret
        = InitOutcome.redirectLogin "invalid_client_id")
  ∧ ((pyStrip client_id).isEmpty = false →
      pyContains client_id GOOGLE_DELETED_CLIENT_ID = false →
      pyEndsWith client_id ".apps.googleusercontent.com" = true →
      (pyStrip client_secret).isEmpty = true →
      google_login client_id client_secret
        = InitOutcome.redirectLogin "oauth_not_configured")
  ∧ (client_id.isEmpty = true →
      microsoft_login client_id client_secret
        = InitOutcome.httpError 500 "Microsoft OAuth not configured")
  ∧ (client_id.isEmpty = false →
      microsoft_login client_id client_secret = InitOutcome.redirectProvider) := by
  have hne : (pyStrip client_id).isEmpty = false → client_id.isEmpty = false := by
    intro h
    cases hc : client_id.isEmpty with
    | false => rfl
    | true =>
      rw [(String.isEmpty_iff client_id).mp hc] at h
      exact absurd h (by decide)
  refine ⟨?_, ?_, ?_, ?_, ?_, ?_⟩
  · intro h
    simp [google_login, h]
  · intro h hdel
    simp [google_login, h, hne h, hdel]
  · intro h hdel hend
    simp [google_login, h, hne h, hdel, hend]
  · intro h hdel hend hsec
    simp [google_login, h, hne h, hdel, hend, hsec]
  · intro h
    simp [microsoft_login, h]
  · intro h
    simp [microsoft_login, h]

/-- Witness for `C9_initiation_config`: a blank Google client id yields
the configuration-missing redirect to login. -/
theorem C9_initiation_config_witness :
    google_login "  " "whatever" = InitOutcome.redirectLogin "oauth_not_configured" :=
  (C9_initiation_config "  " "whatever").1 (by decide)

end ConnectHub
